import Mathlib

/-!
Verification development for the NetRunner crawl-and-validate engine.

The definitions below are a shallow embedding of the Python sources:
  - src/validators/advanced_link_checker.py  (check_link_strict and helpers)
  - src/checker.py                           (validate_link, run_checker_async)
  - src/utils/dedup.py                       (normalize_url, remove_duplicate_urls)

Network calls are modelled by an environment that records, per call site,
either a response or a raised exception (Except.error).  The HTML-parsing
layer (BeautifulSoup plus urllib.parse.urljoin) is modelled by an abstract
function of type String -> String -> Except String DocInfo: it extracts the
page title, the joined visible text and the resolved canonical URL, and it
can fail, because urljoin raises ValueError on hrefs such as "http://["
(invalid IPv6 host) found in a canonical link tag.  Machine evaluation is
kept kernel-friendly: all string operations are defined structurally on the
underlying character lists.
-/

namespace NetRunner

/-- Character-list prefix test, structural so that the kernel can evaluate it. -/
def listIsPrefixOf : List Char → List Char → Bool
| [], _ => true
| _ :: _, [] => false
| a :: as, b :: bs => a = b && listIsPrefixOf as bs

/-- Substring containment on character lists (needle occurs somewhere in hay). -/
def listContainsSub (hay needle : List Char) : Bool :=
match hay with
| [] => needle.isEmpty
| _ :: rest => listIsPrefixOf needle hay || listContainsSub rest needle

/-- Python `needle in hay` on strings. -/
def strContains (hay needle : String) : Bool :=
listContainsSub hay.data needle.data

/-- Python `s.lower()` (ASCII case folding, which is what the heuristics rely on). -/
def strLower (s : String) : String :=
⟨s.data.map Char.toLower⟩

/-- Python `s.strip()`: drop whitespace from both ends. -/
def pyStrip (s : String) : String :=
⟨((s.data.dropWhile Char.isWhitespace).reverse.dropWhile Char.isWhitespace).reverse⟩

/-- Python `s.rstrip("/")`: drop every trailing slash. -/
def rstripSlashes (s : String) : String :=
⟨((s.data.reverse.dropWhile (fun c => c = '/'))).reverse⟩

/-- Python `len(s)` (code points). -/
def pyLen (s : String) : Nat :=
s.data.length

/-- Python `s[:n]` (code-point slicing). -/
def strTake (s : String) (n : Nat) : String :=
⟨s.data.take n⟩

/-- Word characters for the `\b` boundary of the regex `\b404\b`. -/
def isWordChar (c : Char) : Bool :=
c.isAlphanum || c = '_'

/-- Boundary condition after a match of `404`: end of string or a non-word char. -/
def boundaryAfter : List Char → Bool
| [] => true
| c :: _ => !isWordChar c

/-- Boundary condition before a match of `404`: start of string or a non-word char. -/
def boundaryBefore : Option Char → Bool
| none => true
| some c => !isWordChar c

/-- Search for the regex `\b404\b` (the only non-literal ERROR_PATTERNS entry):
`prev` is the character just before the current position. -/
def hasWord404 : Option Char → List Char → Bool
| _, [] => false
| prev, c :: rest =>
  (c = '4' &&
    (match rest with
     | '0' :: '4' :: after => boundaryBefore prev && boundaryAfter after
     | _ => false))
  || hasWord404 (some c) rest

/-- ERROR_PATTERNS of advanced_link_checker.py, minus the regex entry
`\b404\b`, which is handled by `hasWord404`.  All the other patterns are
regex-literal strings, so searching them is substring containment. -/
def plainErrorPatterns : List String :=
["page not found", "not found", "something went wrong", "an unexpected error",
 "error loading", "not available", "nicht gefunden", "se ha producido un error",
 "oops"]

/-- Embedding of `_is_soft_404_text` (advanced_link_checker.py lines 77-87):
false on the empty string, else true when some ERROR_PATTERNS entry matches
the lower-cased text or the stripped text is shorter than 300 characters. -/
def is_soft_404_text (text : String) : Bool :=
if text = "" then false
else
  let t := strLower text
  if plainErrorPatterns.any (fun p => strContains t p) || hasWord404 none t.data then true
  else if pyLen (pyStrip t) < 300 then true
  else false

/-- Match of the regex `/[a-z]{2}-[a-z]{2}/` (LOCALE_RE, compiled with re.I)
at the head of the character list. -/
def localeMatchAt : List Char → Bool
| '/' :: a :: b :: '-' :: d :: e :: '/' :: _ =>
  a.isAlpha && b.isAlpha && d.isAlpha && e.isAlpha
| _ => false

/-- Embedding of `LOCALE_RE.sub("/", s, count=1)` combined with
`LOCALE_RE.search(s)`: returns the string with the leftmost `/xx-yy/`
segment collapsed to `/`, or none when the pattern does not occur. -/
def localeSub1 : List Char → Option (List Char)
| '/' :: a :: b :: '-' :: d :: e :: '/' :: tail =>
  if a.isAlpha && b.isAlpha && d.isAlpha && e.isAlpha then some ('/' :: tail)
  else
    match localeSub1 (a :: b :: '-' :: d :: e :: '/' :: tail) with
    | some l => some ('/' :: l)
    | none => none
| c :: rest =>
  match localeSub1 rest with
  | some l => some (c :: l)
  | none => none
| [] => none

/-- Decidable equality for Except values, so that concrete environments can
be evaluated by the kernel. -/
instance {ε α : Type} [DecidableEq ε] [DecidableEq α] : DecidableEq (Except ε α) := fun a b =>
match a, b with
| .ok x, .ok y =>
  if h : x = y then .isTrue (by rw [h]) else .isFalse (fun hc => h (Except.ok.inj hc))
| .error x, .error y =>
  if h : x = y then .isTrue (by rw [h]) else .isFalse (fun hc => h (Except.error.inj hc))
| .ok _, .error _ => .isFalse (fun hc => Except.noConfusion hc)
| .error _, .ok _ => .isFalse (fun hc => Except.noConfusion hc)

/-- Classification statuses: the string values stored in the result dict. -/
inductive Status
| UNKNOWN
| OK
| BROKEN
| SOFT_404
| SOFT_403
| NA
deriving DecidableEq, Repr

/-- The five terminal statuses of the spec (everything except UNKNOWN). -/
def Status.isTerminal : Status → Bool
| .UNKNOWN => false
| _ => true

/-- An HTTP response as seen by one aiohttp call: final status after
redirects, resolved URL, and decoded body text. -/
structure HttpResp where
  status : Nat
  url : String
  body : String
deriving DecidableEq, Repr

/-- A network call either yields a response or raises (Except.error carries
the exception message, str(e)). -/
abbrev Fetch := Except String HttpResp

/-- The `async_resp` object optionally handed to check_link_strict: its
status, its resolved URL, and the outcome of `await resp.text()` (which can
itself raise, inside the guarded helper). -/
structure ARResp where
  status : Nat
  url : String
  text : Except String String

/-- Outcome of the HTML-parsing layer on one document: page title
(`soup.title.string or ""`), the space-joined visible text (before the
[:5000] truncation applied by the caller), and the canonical URL resolved
by `urljoin(current_final, href)` when a canonical link tag with a
non-empty href exists.  The whole analysis can fail with an exception,
because urljoin raises ValueError on hrefs with a malformed host such as
"http://[". -/
structure DocInfo where
  title : String
  visibleText : String
  canonical : Option String
deriving DecidableEq, Repr

/-- Abstract model of BeautifulSoup parsing plus canonical urljoin:
arguments are the html text and `current_final`. -/
abbrev Analyze := String → String → Except String DocInfo

/-- Environment of one check_link_strict call: one entry per network call
site (each site is reached at most once per call) plus the parsing layer. -/
structure Env where
  asyncResp : Option ARResp
  headResp : Fetch
  getResp : Fetch
  followupGet : Fetch
  localeHead : Fetch
  localeGet : Fetch
  jsRender : Except String String
  analyze : Analyze

/-- Return value of the inner `_analyze_html` helper. -/
structure Analysed where
  title : String
  visibleText : String
  snippet : String
  canonical : Option String
  soft : Bool
deriving DecidableEq, Repr

/-- The result dict.  `url`, `status`, `status_code` and `reason` are set by
every return site; the remaining fields are Option-valued because the
last-resort exception dicts omit some of the keys (none = key absent). -/
structure VResult where
  url : String
  final_url : Option String
  status : Status
  status_code : Nat
  reason : String
  snippet : Option String
  localized_rescue : Option Bool
  canonical_match : Option Bool
  js_recovery : Option Bool
deriving DecidableEq, Repr

/-- Embedding of `_analyze_html` (lines 114-134): truncate the visible text
to 5000 chars, build the bounded snippet, resolve the canonical tag, and
compute the soft-404 signal on title + " " + visible text. -/
def analyzeHtml (az : Analyze) (html currentFinal : String) : Except String Analysed :=
match az html currentFinal with
| .error e => .error e
| .ok d =>
  let title := d.title
  let visibleText := strTake d.visibleText 5000
  let snippet := if pyLen visibleText > 400 then strTake visibleText 400 ++ "..." else visibleText
  let soft := is_soft_404_text (title ++ " " ++ visibleText)
  .ok { title := title, visibleText := visibleText, snippet := snippet,
        canonical := d.canonical, soft := soft }

/-- The GET-fallback half of `_head_then_get`: on success the body is the
decoded response text, on failure the triple carries no status and the
pseudo-body "__EXC__:..." used as the reason. -/
def getFallback (env : Env) (url : String) : Option Nat × String × String :=
match env.getResp with
| .ok g => (some g.status, g.url, g.body)
| .error e => (none, url, "__EXC__:" ++ e)

/-- Embedding of `_head_then_get` (lines 137-168).  With an async_resp the
body text is fetched only for statuses below 500 (and a failing
`resp.text()` is caught by the enclosing try).  Otherwise HEAD runs first
and any status in (405, 501) or at least 400 — or any HEAD exception —
falls back to a full GET. -/
def headThenGet (env : Env) (url : String) : Option Nat × String × String :=
match env.asyncResp with
| some r =>
  if r.status ≠ 0 ∧ r.status < 500 then
    match r.text with
    | .ok t => (some r.status, r.url, t)
    | .error e => (none, url, "__EXC__:" ++ e)
  else (some r.status, r.url, "")
| none =>
  match env.headResp with
  | .ok h =>
    if h.status = 405 ∨ h.status = 501 ∨ h.status ≥ 400 then getFallback env url
    else (some h.status, h.url, "")
  | .error _ => getFallback env url

/-- Analysed content for the non-broken flow (lines 190-211): analyze the
body when present — a parse exception there escapes to the outer handler —
otherwise issue a lightweight GET of final_url, where both a fetch failure
and a parse failure degrade to the empty default analysis. -/
def getAnalysed (env : Env) (body finalUrl : String) : Except String Analysed :=
if body ≠ "" then analyzeHtml env.analyze body finalUrl
else
  let defaultAnalysed : Analysed :=
    { title := "", visibleText := "", snippet := "", canonical := none, soft := false }
  match env.followupGet with
  | .ok g2 =>
    match analyzeHtml env.analyze g2.body finalUrl with
    | .ok a => .ok a
    | .error _ => .ok defaultAnalysed
  | .error _ => .ok defaultAnalysed

/-- Canonical comparison (lines 213-219): both sides trailing-slash
normalized; empty strings are falsy at each Python guard. -/
def canonicalMatch (can : Option String) (finalUrl : String) : Bool :=
match can with
| none => false
| some c =>
  if c = "" then false
  else
    let canR := rstripSlashes c
    let finalCmp := if finalUrl = "" then finalUrl else rstripSlashes finalUrl
    canR ≠ "" && finalCmp ≠ "" && rstripSlashes canR = rstripSlashes finalCmp

/-- Locale fallback probe (lines 230-263): when final_url contains a
/xx-yy/ segment, HEAD the stripped URL (GET only if the HEAD raised); a
probe answering exactly 200 yields the rescued resolved URL. -/
def localeRescue (env : Env) (finalUrl : String) : Option String :=
match localeSub1 finalUrl.data with
| none => none
| some fb =>
  let fallback : String := ⟨fb⟩
  if fallback ≠ "" ∧ fallback ≠ finalUrl then
    match env.localeHead with
    | .ok fh => if fh.status = 200 then some fh.url else none
    | .error _ =>
      match env.localeGet with
      | .ok fg => if fg.status = 200 then some fg.url else none
      | .error _ => none
  else none

/-- Snippet built from a JS-rendered text (lines 281-283 and 310-312). -/
def jsSnippet (t : String) : String :=
if pyLen t > 400 then strTake t 400 ++ "..." else t

/-- The dict returned when `_head_then_get` yielded no status (line 175-178):
all keys of the initial result dict are present. -/
def naResult (url finalUrl body : String) : VResult :=
{ url := url, final_url := some finalUrl, status := .NA, status_code := 0,
  reason := if body = "" then "no-response" else body,
  snippet := some "", localized_rescue := some false,
  canonical_match := some false, js_recovery := some false }

/-- The hard-broken dict (lines 181-188). -/
def brokenResult (url finalUrl : String) (status : Nat) (snip : String) : VResult :=
{ url := url, final_url := some finalUrl, status := .BROKEN, status_code := status,
  reason := "HTTP " ++ toString status,
  snippet := some snip, localized_rescue := some false,
  canonical_match := some false, js_recovery := some false }

/-- The soft-404 dict (lines 221-228); the canonical flag was already set. -/
def soft404Result (url finalUrl : String) (status : Nat) (snip : String) (cm : Bool) : VResult :=
{ url := url, final_url := some finalUrl, status := .SOFT_404, status_code := status,
  reason := "Soft/visible error detected",
  snippet := some snip, localized_rescue := some false,
  canonical_match := some cm, js_recovery := some false }

/-- The localized-rescue dict (lines 241-246 and 256-261): status becomes
OK, final_url is replaced by the probe resolved URL, status_code keeps the
original response status and the snippet is still the initial empty string. -/
def rescueResult (url rescuedUrl : String) (status : Nat) (cm : Bool) : VResult :=
{ url := url, final_url := some rescuedUrl, status := .OK, status_code := status,
  reason := "Localized fallback succeeded",
  snippet := some "", localized_rescue := some true,
  canonical_match := some cm, js_recovery := some false }

/-- The soft-403 dict (lines 267-272), before any JS-render attempt. -/
def soft403Result (url finalUrl : String) (snip : String) (cm : Bool) : VResult :=
{ url := url, final_url := some finalUrl, status := .SOFT_403, status_code := 403,
  reason := "Cloudflare / Bot protection detected (soft)",
  snippet := some snip, localized_rescue := some false,
  canonical_match := some cm, js_recovery := some false }

/-- The markerless-403 dict (lines 285-290): the snippet is still the
initial empty string. -/
def ok403Result (url finalUrl : String) (cm : Bool) : VResult :=
{ url := url, final_url := some finalUrl, status := .OK, status_code := 403,
  reason := "403 treated as OK (soft)",
  snippet := some "", localized_rescue := some false,
  canonical_match := some cm, js_recovery := some false }

/-- The default OK dict (lines 292-297). -/
def okDefault (url finalUrl : String) (status : Nat) (snip : String) (cm : Bool) : VResult :=
{ url := url, final_url := some finalUrl, status := .OK, status_code := status,
  reason := "HTTP " ++ toString status,
  snippet := some snip, localized_rescue := some false,
  canonical_match := some cm, js_recovery := some false }

/-- The last-resort exception handler (lines 299-321).  The JS-recovery dict
omits the localized_rescue and canonical_match keys; the plain dict also
omits snippet and js_recovery. -/
def exceptionResult (env : Env) (url : String) (e : String) (enableJs : Bool) : VResult :=
let plain : VResult :=
  { url := url, final_url := some url, status := .NA, status_code := 0,
    reason := e, snippet := none, localized_rescue := none,
    canonical_match := none, js_recovery := none }
if enableJs then
  match env.jsRender with
  | .ok t =>
    if t ≠ "" ∧ ¬ (is_soft_404_text t = true) then
      { url := url, final_url := some url, status := .OK, status_code := 200,
        reason := "Recovered via JS render (exception path)",
        snippet := some (jsSnippet t), localized_rescue := none,
        canonical_match := none, js_recovery := some true }
    else plain
  | .error _ => plain
else plain

/-- Embedding of `check_link_strict` (advanced_link_checker.py lines
90-321).  All network calls are drawn from the environment; the only
statements of the outer try block that can raise in the source are the
`_analyze_html` calls on a fetched body (via urljoin), so the exception
handler is reached exactly when such an analysis fails. -/
def check_link_strict (env : Env) (url : String) (enableJs : Bool) : VResult :=
match headThenGet env url with
| (none, finalUrl, body) => naResult url finalUrl body
| (some status, finalUrl, body) =>
  if status ≥ 500 ∨ status = 404 ∨ status = 410 then
    if body = "" then brokenResult url finalUrl status ""
    else
      match analyzeHtml env.analyze body finalUrl with
      | .ok a => brokenResult url finalUrl status a.snippet
      | .error e => exceptionResult env url e enableJs
  else
    match getAnalysed env body finalUrl with
    | .error e => exceptionResult env url e enableJs
    | .ok a =>
      let cm := canonicalMatch a.canonical finalUrl
      if a.soft then soft404Result url finalUrl status a.snippet cm
      else
        match localeRescue env finalUrl with
        | some rescuedUrl => rescueResult url rescuedUrl status cm
        | none =>
          if status = 403 then
            if body ≠ "" ∧ strContains (strLower body) "cloudflare" then
              let base := soft403Result url finalUrl a.snippet cm
              if enableJs then
                match env.jsRender with
                | .ok t =>
                  if t ≠ "" ∧ ¬ (is_soft_404_text t = true) then
                    { base with
                      status := .OK
                      status_code := 200
                      reason := "Recovered via JS render"
                      snippet := some (jsSnippet t)
                      js_recovery := some true }
                  else base
                | .error _ => base
              else base
            else ok403Result url finalUrl cm
          else okDefault url finalUrl status a.snippet cm

/-- Embedding of the `validate_link` wrapper (checker.py lines 194-248):
the wrapper performs its own HEAD or GET under the per-domain semaphore and
hands the response to check_link_strict; if that request raises, the
wrapper returns a minimal error dict that carries only the url, status,
status_code and reason keys (no final_url, snippet or flags). -/
def validate_link (w : String → Except String Env) (url : String) : VResult :=
match w url with
| .ok env => check_link_strict env url false
| .error e =>
  { url := url, final_url := none, status := .NA, status_code := 0,
    reason := e, snippet := none, localized_rescue := none,
    canonical_match := none, js_recovery := none }

/-- A discovered link occurrence as built by fetch_page_links
(checker.py lines 174-179). -/
structure LinkCand where
  source_page : String
  element : String
  anchor_text : String
  url : String
deriving DecidableEq, Repr

/-- The dedup key of run_checker_async (checker.py line 308):
`(l.get("url") or "").rstrip("/")` — only trailing slashes are stripped. -/
def urlKey (l : LinkCand) : String :=
rstripSlashes l.url

/-- Checker dedup key as an Option: none models the `if not url_key: continue`
skip of candidates whose stripped URL is empty. -/
def candKey (l : LinkCand) : Option String :=
if urlKey l = "" then none else some (urlKey l)

/-- Generic first-seen deduplication keyed by an optional string: entries
with key none are dropped, and for each key the first entry wins, in
insertion order.  This is the shape of both the dict loop of
run_checker_async (lines 306-314) and remove_duplicate_urls (dedup.py). -/
def firstSeenBy (key : α → Option String) : List String → List α → List α
| _, [] => []
| seen, x :: rest =>
  match key x with
  | none => firstSeenBy key seen rest
  | some k =>
    if k ∈ seen then firstSeenBy key seen rest
    else x :: firstSeenBy key (k :: seen) rest

/-- The dedup stage of run_checker_async: the insertion-ordered values of
the `normalized` dict. -/
def dedupCandidates (ls : List LinkCand) : List LinkCand :=
firstSeenBy candKey [] ls

/-- Cut a character list at the first occurrence of `c` (dropping `c` and
everything after it). -/
def cutAtFirst (c : Char) : List Char → List Char
| [] => []
| x :: rest => if x = c then [] else x :: cutAtFirst c rest

/-- Embedding of `normalize_url` (dedup.py lines 9-21): strip and lower, drop
the fragment from the first `#`, drop the query from the first `?`, and
drop one trailing slash.  The Python regexes `#.*$` and `?.*$` cut at the
first occurrence exactly as modelled here on inputs without embedded
newline characters. -/
def normalize_url (url : String) : String :=
let u := strLower (pyStrip url)
let u : String := ⟨cutAtFirst '#' u.data⟩
let u : String := ⟨cutAtFirst '?' u.data⟩
if u.data.getLast? = some '/' then ⟨u.data.dropLast⟩ else u

/-- Embedding of `remove_duplicate_urls` (dedup.py lines 24-36). -/
def remove_duplicate_urls (urls : List String) : List String :=
firstSeenBy (fun u => some (normalize_url u)) [] urls

/-- Validation stage of run_checker_async (lines 317-349): one validator per
unique link, results gathered in input order (the batch loop concatenates
the chunk results in order, and no result dict is falsy, so the
`if not r: continue` guard never skips). -/
def runValidationResults (w : String → Except String Env) (allLinks : List LinkCand) : List VResult :=
allLinks.map (fun l => validate_link w l.url)

/-- The broken partition of run_checker_async (line 352). -/
def collectBroken (results : List VResult) : List VResult :=
results.filter (fun r => r.status == Status.BROKEN)

/-- State of one crawl run throttle: per-domain semaphore values and holder
counts (the gate for a domain is created lazily by `setdefault` with value
PER_DOMAIN_CONCURRENCY, which is equivalent to a total map initialised at
the capacity) plus the aiohttp connector permits, the single global gate. -/
structure TState where
  avail : String → Nat
  holding : String → Nat
  connAvail : Nat
  conns : Nat

/-- Fresh throttle state of a run: every per-domain gate at capacity `N`
(PER_DOMAIN_CONCURRENCY), the connector at capacity `L` (the
`max_concurrency` TCPConnector limit), nothing in flight. -/
def initTState (N L : Nat) : TState :=
{ avail := fun _ => N, holding := fun _ => 0, connAvail := L, conns := 0 }

/-- Transitions of the throttle.  A validation enters `async with sem` only
when the semaphore for its domain has a free permit; it may open a
connection only while holding its domain permit and only when the connector
has a free permit; releases return the permits. -/
inductive ThrottleStep (s : TState) : TState → Prop
| acquireDomain (d : String) (h : 0 < s.avail d) :
    ThrottleStep s
      { s with
        avail := Function.update s.avail d (s.avail d - 1)
        holding := Function.update s.holding d (s.holding d + 1) }
| acquireConn (d : String) (h1 : 0 < s.connAvail) (h2 : 0 < s.holding d) :
    ThrottleStep s { s with connAvail := s.connAvail - 1, conns := s.conns + 1 }
| releaseConn (h : 0 < s.conns) :
    ThrottleStep s { s with conns := s.conns - 1, connAvail := s.connAvail + 1 }
| releaseDomain (d : String) (h : 0 < s.holding d) :
    ThrottleStep s
      { s with
        avail := Function.update s.avail d (s.avail d + 1)
        holding := Function.update s.holding d (s.holding d - 1) }

/-- States reachable in one crawl run with per-domain limit `N` and global
connector limit `L`. -/
inductive ThrottleReach (N L : Nat) : TState → Prop
| init : ThrottleReach N L (initTState N L)
| step {s t : TState} : ThrottleReach N L s → ThrottleStep s t → ThrottleReach N L t

/-- Default per-domain concurrency of checker.py (line 92). -/
def PER_DOMAIN_CONCURRENCY : Nat := 8

/-- Default global concurrency of checker.py (line 91). -/
def GLOBAL_CONCURRENCY : Nat := 200

/-- Key-presence predicate on a result dict: the claim that every field of
the result record is present (url, status, status_code and reason are
present by construction on every path). -/
def hasAllKeys (r : VResult) : Prop :=
r.final_url.isSome = true ∧ r.snippet.isSome = true ∧ r.localized_rescue.isSome = true ∧
r.canonical_match.isSome = true ∧ r.js_recovery.isSome = true

/-- Parsing model for plain-text documents: no title tag, no canonical tag,
and the joined visible text is the document itself — which is what
BeautifulSoup yields on bodies that are bare text (and on the empty body:
title "", visible text "", no canonical). -/
def azPlain : Analyze := fun h _ => Except.ok ⟨"", h, none⟩

/-- A body whose canonical link tag has an href with a malformed bracketed
host: BeautifulSoup finds the tag, and `urljoin(current_final, "http://[")`
then raises `ValueError: Invalid IPv6 URL` inside `_analyze_html`. -/
def badCanonicalBody : String := "<link rel=\"canonical\" href=\"http://[\">"

/-- Parsing model for `badCanonicalBody` (analysis raises, as urljoin does);
other documents parse as plain text. -/
def azFail : Analyze := fun h _ =>
if h = badCanonicalBody then Except.error "ValueError: Invalid IPv6 URL"
else Except.ok ⟨"", h, none⟩

/-- A 350-character plain body: long enough that the stripped text is not
under the 300-character soft-404 threshold, and free of error phrases. -/
def t350 : String := String.mk (List.replicate 350 'a')

/-- Environment: GET resolves 404 with a body whose canonical href makes
the analysis raise (C2 counterexample). -/
def envC2c : Env :=
{ asyncResp := none, headResp := Except.ok ⟨404, "https://example.com/x", ""⟩,
  getResp := Except.ok ⟨404, "https://example.com/x", badCanonicalBody⟩,
  followupGet := Except.error "unused", localeHead := Except.error "unused",
  localeGet := Except.error "unused", jsRender := Except.error "unused",
  analyze := azFail }

/-- Environment: HEAD raises, GET resolves 404 with an empty body (C2
witness). -/
def envC2w : Env :=
{ asyncResp := none, headResp := Except.error "ClientConnectorError",
  getResp := Except.ok ⟨404, "https://example.com/x", ""⟩,
  followupGet := Except.error "unused", localeHead := Except.error "unused",
  localeGet := Except.error "unused", jsRender := Except.error "unused",
  analyze := azPlain }

/-- Environment: GET resolves 404 at a locale-prefixed URL while a HEAD of
the stripped URL would answer 200 (C3 counterexample). -/
def envC3c : Env :=
{ asyncResp := none, headResp := Except.ok ⟨404, "https://example.com/de-de/missing", ""⟩,
  getResp := Except.ok ⟨404, "https://example.com/de-de/missing", ""⟩,
  followupGet := Except.error "unused",
  localeHead := Except.ok ⟨200, "https://example.com/missing", ""⟩,
  localeGet := Except.error "unused", jsRender := Except.error "unused",
  analyze := azPlain }

/-- Environment: GET resolves 200 at a locale-prefixed URL with a long
healthy body, and the HEAD probe of the stripped URL answers 200 (C3
witness). -/
def envC3w : Env :=
{ asyncResp := none, headResp := Except.ok ⟨405, "https://example.com/de-de/x9", ""⟩,
  getResp := Except.ok ⟨200, "https://example.com/de-de/x9", t350⟩,
  followupGet := Except.error "unused",
  localeHead := Except.ok ⟨200, "https://example.com/x9", ""⟩,
  localeGet := Except.error "unused", jsRender := Except.error "unused",
  analyze := azPlain }

/-- Environment: GET resolves 200 with a body that is soft-404-like (the
link tag has no visible text, so the title plus visible text the analysis
would feed the predicate is under the length threshold) but whose
canonical href is the malformed "http://[", on which the analysis raises
(C4 counterexample). -/
def envC4c : Env :=
{ asyncResp := none, headResp := Except.ok ⟨405, "https://example.com/x", ""⟩,
  getResp := Except.ok ⟨200, "https://example.com/x", badCanonicalBody⟩,
  followupGet := Except.error "unused", localeHead := Except.error "unused",
  localeGet := Except.error "unused", jsRender := Except.error "unused",
  analyze := azFail }

/-- Environment: GET resolves 200 with a short plain body (C4 witness). -/
def envC4w : Env :=
{ asyncResp := none, headResp := Except.ok ⟨405, "https://example.com/x", ""⟩,
  getResp := Except.ok ⟨200, "https://example.com/x", "short page"⟩,
  followupGet := Except.error "unused", localeHead := Except.error "unused",
  localeGet := Except.error "unused", jsRender := Except.error "unused",
  analyze := azPlain }

/-- Environment: GET resolves 403 with the short body "cloudflare" (C5
counterexample). -/
def envC5c : Env :=
{ asyncResp := none, headResp := Except.ok ⟨403, "https://example.com/x", ""⟩,
  getResp := Except.ok ⟨403, "https://example.com/x", "cloudflare"⟩,
  followupGet := Except.error "unused", localeHead := Except.error "unused",
  localeGet := Except.error "unused", jsRender := Except.error "unused",
  analyze := azPlain }

/-- A long 403 challenge body: mentions cloudflare but is not soft-404-like. -/
def cfBig : String := "cloudflare " ++ t350

/-- Environment: GET resolves 403 with a long cloudflare body (C5 witness). -/
def envC5w : Env :=
{ asyncResp := none, headResp := Except.ok ⟨403, "https://example.com/x", ""⟩,
  getResp := Except.ok ⟨403, "https://example.com/x", cfBig⟩,
  followupGet := Except.error "unused", localeHead := Except.error "unused",
  localeGet := Except.error "unused", jsRender := Except.error "unused",
  analyze := azPlain }

/-- Environment: GET resolves 200 with a body whose canonical href makes
the analysis raise (C8 counterexample). -/
def envC8c : Env :=
{ asyncResp := none, headResp := Except.ok ⟨405, "https://example.com/x", ""⟩,
  getResp := Except.ok ⟨200, "https://example.com/x", badCanonicalBody⟩,
  followupGet := Except.error "unused", localeHead := Except.error "unused",
  localeGet := Except.error "unused", jsRender := Except.error "unused",
  analyze := azFail }

/-- Environment: every call raises; parsing is plain (C8 witness). -/
def envPlain : Env :=
{ asyncResp := none, headResp := Except.error "boom", getResp := Except.error "boom",
  followupGet := Except.error "boom", localeHead := Except.error "boom",
  localeGet := Except.error "boom", jsRender := Except.error "boom",
  analyze := azPlain }

/-- Environment: HEAD answers 200 (no body) and the follow-up body GET
succeeds with an entirely empty body (C10 counterexample). -/
def envC10c : Env :=
{ asyncResp := none, headResp := Except.ok ⟨200, "https://example.com/x", ""⟩,
  getResp := Except.error "unused",
  followupGet := Except.ok ⟨200, "https://example.com/x", ""⟩,
  localeHead := Except.error "unused", localeGet := Except.error "unused",
  jsRender := Except.error "unused", analyze := azPlain }

/-- Environment: HEAD answers 200 (no body) and the follow-up body GET
fails (C10 witness). -/
def envC10w : Env :=
{ asyncResp := none, headResp := Except.ok ⟨200, "https://example.com/x", ""⟩,
  getResp := Except.error "unused", followupGet := Except.error "TimeoutError",
  localeHead := Except.error "unused", localeGet := Except.error "unused",
  jsRender := Except.error "unused", analyze := azPlain }

/-- Candidate with an upper-case URL variant (C6 counterexample). -/
def candUpper : LinkCand := ⟨"https://seed", "a", "text", "https://EXample.com/Path"⟩

/-- Candidate with the lower-case URL variant (C6 counterexample). -/
def candLower : LinkCand := ⟨"https://seed", "a", "text", "https://example.com/path"⟩

/-- Candidate without a trailing slash (C6). -/
def candPlain : LinkCand := ⟨"https://seed", "a", "text", "https://example.com/q"⟩

/-- Candidate identical to `candPlain` up to a trailing slash (C6). -/
def candSlash : LinkCand := ⟨"https://seed", "button", "other", "https://example.com/q/"⟩

end NetRunner

namespace NetRunner

theorem exceptionResult_terminal (env : Env) (u e : String) (ejs : Bool) :
    (exceptionResult env u e ejs).status.isTerminal = true := by
  unfold exceptionResult
  repeat' split
  all_goals rfl

theorem exceptionResult_url (env : Env) (u e : String) (ejs : Bool) :
    (exceptionResult env u e ejs).url = u := by
  unfold exceptionResult
  repeat' split
  all_goals rfl

theorem check_link_strict_terminal (env : Env) (u : String) (ejs : Bool) :
    (check_link_strict env u ejs).status.isTerminal = true := by
  unfold check_link_strict
  obtain ⟨st, fu, bd⟩ := headThenGet env u
  cases st
  · rfl
  · dsimp only
    repeat' split
    all_goals first
      | rfl
      | apply exceptionResult_terminal

theorem check_link_strict_url (env : Env) (u : String) (ejs : Bool) :
    (check_link_strict env u ejs).url = u := by
  unfold check_link_strict
  obtain ⟨st, fu, bd⟩ := headThenGet env u
  cases st
  · rfl
  · dsimp only
    repeat' split
    all_goals first
      | rfl
      | apply exceptionResult_url

theorem validate_link_url (w : String → Except String Env) (u : String) :
    (validate_link w u).url = u := by
  unfold validate_link
  cases w u with
  | ok env => exact check_link_strict_url env u false
  | error e => rfl

theorem validate_link_terminal (w : String → Except String Env) (u : String) :
    (validate_link w u).status.isTerminal = true := by
  unfold validate_link
  cases w u with
  | ok env => exact check_link_strict_terminal env u false
  | error e => rfl

theorem status_terminal_cases (s : Status) (h : s.isTerminal = true) :
    s ≠ Status.UNKNOWN ∧
    s ∈ [Status.OK, Status.BROKEN, Status.SOFT_404, Status.SOFT_403, Status.NA] := by
  cases s <;> simp_all [Status.isTerminal]

theorem analyzeHtml_ok (az : Analyze) (hok : ∀ h b, ∃ d, az h b = Except.ok d)
    (h b : String) : ∃ a, analyzeHtml az h b = Except.ok a := by
  obtain ⟨d, hd⟩ := hok h b
  unfold analyzeHtml
  rw [hd]
  exact ⟨_, rfl⟩

theorem getAnalysed_ok (env : Env) (hok : ∀ h b, ∃ d, env.analyze h b = Except.ok d)
    (bd fu : String) : ∃ a, getAnalysed env bd fu = Except.ok a := by
  unfold getAnalysed
  split
  · exact analyzeHtml_ok env.analyze hok bd fu
  · cases hfg : env.followupGet with
    | ok g2 =>
      obtain ⟨a, ha⟩ := analyzeHtml_ok env.analyze hok g2.body fu
      exact ⟨a, by simp only [ha]⟩
    | error e => exact ⟨_, rfl⟩

theorem check_link_strict_allKeys (env : Env) (u : String) (ejs : Bool)
    (hok : ∀ h b, ∃ d, env.analyze h b = Except.ok d) :
    hasAllKeys (check_link_strict env u ejs) := by
  unfold check_link_strict
  obtain ⟨st, fu, bd⟩ := headThenGet env u
  cases st
  · exact ⟨rfl, rfl, rfl, rfl, rfl⟩
  · dsimp only
    split
    · split
      · exact ⟨rfl, rfl, rfl, rfl, rfl⟩
      · obtain ⟨a, ha⟩ := analyzeHtml_ok env.analyze hok bd fu
        rw [ha]
        exact ⟨rfl, rfl, rfl, rfl, rfl⟩
    · obtain ⟨a, ha⟩ := getAnalysed_ok env hok bd fu
      rw [ha]
      dsimp only
      repeat' split
      all_goals exact ⟨rfl, rfl, rfl, rfl, rfl⟩


theorem firstSeenBy_sublist (key : α → Option String) (ls : List α) :
    ∀ seen, (firstSeenBy key seen ls).Sublist ls := by
  induction ls with
  | nil => intro seen; simp [firstSeenBy]
  | cons x rest ih =>
    intro seen
    unfold firstSeenBy
    cases hk : key x with
    | none => exact (ih seen).cons x
    | some k =>
      dsimp only
      by_cases hm : k ∈ seen
      · rw [if_pos hm]; exact (ih seen).cons x
      · rw [if_neg hm]; exact (ih (k :: seen)).cons₂ x

theorem firstSeenBy_find (key : α → Option String) (ls : List α) :
    ∀ (seen : List String) (y : α), y ∈ firstSeenBy key seen ls →
      ∃ k, key y = some k ∧ k ∉ seen ∧
        List.find? (fun z => key z == some k) ls = some y := by
  induction ls with
  | nil => intro seen y hy; simp [firstSeenBy] at hy
  | cons x rest ih =>
    intro seen y hy
    unfold firstSeenBy at hy
    cases hk : key x with
    | none =>
      rw [hk] at hy; dsimp only at hy
      obtain ⟨k, hky, hks, hfind⟩ := ih seen y hy
      refine ⟨k, hky, hks, ?_⟩
      have hpx : (key x == some k) = false := by simp [hk]
      simp [List.find?, hpx, hfind]
    | some kx =>
      rw [hk] at hy; dsimp only at hy
      by_cases hm : kx ∈ seen
      · rw [if_pos hm] at hy
        obtain ⟨k, hky, hks, hfind⟩ := ih seen y hy
        refine ⟨k, hky, hks, ?_⟩
        have hne : kx ≠ k := fun h => hks (h ▸ hm)
        have hpx : (key x == some k) = false := by simp [hk, hne]
        simp [List.find?, hpx, hfind]
      · rw [if_neg hm] at hy
        rcases List.mem_cons.mp hy with rfl | hy2
        · refine ⟨kx, hk, hm, ?_⟩
          have hpx : (key y == some kx) = true := by simp [hk]
          simp [List.find?, hpx]
        · obtain ⟨k, hky, hks, hfind⟩ := ih (kx :: seen) y hy2
          have hknk : k ≠ kx := fun h => hks (by simp [h])
          have hkseen : k ∉ seen := fun h => hks (List.mem_cons_of_mem _ h)
          refine ⟨k, hky, hkseen, ?_⟩
          have hpx : (key x == some k) = false := by simp [hk]; exact fun h => hknk h.symm
          simp [List.find?, hpx, hfind]

theorem firstSeenBy_pairwise (key : α → Option String) (ls : List α) :
    ∀ seen, (firstSeenBy key seen ls).Pairwise (fun a b => key a ≠ key b) := by
  induction ls with
  | nil => intro seen; simp [firstSeenBy]
  | cons x rest ih =>
    intro seen
    unfold firstSeenBy
    cases hk : key x with
    | none => exact ih seen
    | some kx =>
      dsimp only
      by_cases hm : kx ∈ seen
      · rw [if_pos hm]; exact ih seen
      · rw [if_neg hm]
        refine List.Pairwise.cons ?_ (ih (kx :: seen))
        intro y hy
        obtain ⟨k, hky, hks, -⟩ := firstSeenBy_find key rest (kx :: seen) y hy
        rw [hk, hky]
        intro heq
        injection heq with h
        exact hks (by simp [h])

theorem firstSeenBy_fixpoint (key : α → Option String) (ls : List α) :
    ∀ seen, (∀ x ∈ ls, ∃ k, key x = some k ∧ k ∉ seen) →
      ls.Pairwise (fun a b => key a ≠ key b) →
      firstSeenBy key seen ls = ls := by
  induction ls with
  | nil => intro seen _ _; rfl
  | cons x rest ih =>
    intro seen hmem hpw
    obtain ⟨k, hk, hks⟩ := hmem x (List.mem_cons_self x rest)
    unfold firstSeenBy
    rw [hk]
    dsimp only
    rw [if_neg hks]
    congr 1
    apply ih (k :: seen)
    · intro z hz
      obtain ⟨kz, hkz, hkzs⟩ := hmem z (List.mem_cons_of_mem x hz)
      refine ⟨kz, hkz, ?_⟩
      intro hin
      rcases List.mem_cons.mp hin with rfl | hin2
      · exact (List.pairwise_cons.mp hpw).1 z hz (by rw [hk, hkz])
      · exact hkzs hin2
    · exact (List.pairwise_cons.mp hpw).2

theorem firstSeenBy_idem (key : α → Option String) (ls : List α) :
    firstSeenBy key [] (firstSeenBy key [] ls) = firstSeenBy key [] ls := by
  apply firstSeenBy_fixpoint
  · intro x hx
    obtain ⟨k, hk, -, -⟩ := firstSeenBy_find key ls [] x hx
    exact ⟨k, hk, by simp⟩
  · exact firstSeenBy_pairwise key ls []

theorem firstSeenBy_covers (key : α → Option String) (ls : List α) :
    ∀ (seen : List String) (x : α) (k : String), x ∈ ls → key x = some k → k ∉ seen →
      ∃ y ∈ firstSeenBy key seen ls, key y = some k := by
  induction ls with
  | nil => intro seen x k h; cases h
  | cons z rest ih =>
    intro seen x k hx hk hks
    unfold firstSeenBy
    cases hkz : key z with
    | none =>
      dsimp only
      rcases List.mem_cons.mp hx with rfl | hx2
      · rw [hk] at hkz; cases hkz
      · exact ih seen x k hx2 hk hks
    | some kz =>
      dsimp only
      by_cases hm : kz ∈ seen
      · rw [if_pos hm]
        rcases List.mem_cons.mp hx with rfl | hx2
        · rw [hk] at hkz
          injection hkz with h
          exact absurd (h ▸ hm) hks
        · exact ih seen x k hx2 hk hks
      · rw [if_neg hm]
        by_cases hkk : kz = k
        · exact ⟨z, List.mem_cons_self _ _, by rw [hkz, hkk]⟩
        · rcases List.mem_cons.mp hx with rfl | hx2
          · rw [hk] at hkz; injection hkz with h; exact absurd h.symm hkk
          · have hks2 : k ∉ kz :: seen := by
              intro hin
              rcases List.mem_cons.mp hin with rfl | hin2
              · exact hkk rfl
              · exact hks hin2
            obtain ⟨y, hy, hky⟩ := ih (kz :: seen) x k hx2 hk hks2
            exact ⟨y, List.mem_cons_of_mem _ hy, hky⟩


theorem throttle_conservation (N L : Nat) (s : TState) (h : ThrottleReach N L s) :
    (∀ d, s.avail d + s.holding d = N) ∧ s.connAvail + s.conns = L := by
  induction h with
  | init => exact ⟨fun d => by simp [initTState], by simp [initTState]⟩
  | step _ hstep ih =>
    obtain ⟨ihd, ihc⟩ := ih
    cases hstep with
    | acquireDomain d hd =>
      refine ⟨fun d2 => ?_, by simpa using ihc⟩
      by_cases hdd : d2 = d
      · subst hdd
        simp only [Function.update_same]
        have := ihd d2
        omega
      · simp only [Function.update_noteq hdd]
        exact ihd d2
    | acquireConn d h1 h2 =>
      refine ⟨fun d2 => ihd d2, ?_⟩
      simp only []
      omega
    | releaseConn hc =>
      refine ⟨fun d2 => ihd d2, ?_⟩
      simp only []
      omega
    | releaseDomain d hd =>
      refine ⟨fun d2 => ?_, by simpa using ihc⟩
      by_cases hdd : d2 = d
      · subst hdd
        simp only [Function.update_same]
        have := ihd d2
        omega
      · simp only [Function.update_noteq hdd]
        exact ihd d2


end NetRunner

namespace NetRunner

/-- C1: for every input URL and every response the underlying client can
yield (any status, any body, any transport exception at any call site),
check_link_strict returns exactly one result whose status is one of the
five terminal statuses OK, BROKEN, SOFT_404, SOFT_403, N/A — never the
initial UNKNOWN — and the validate_link wrapper preserves this; both
embeddings are total functions, so no exception escapes either boundary. -/
theorem claim_C1_classification_totality :
    (∀ (env : Env) (u : String) (ejs : Bool),
      (check_link_strict env u ejs).status ≠ Status.UNKNOWN ∧
      (check_link_strict env u ejs).status ∈
        [Status.OK, Status.BROKEN, Status.SOFT_404, Status.SOFT_403, Status.NA]) ∧
    (∀ (w : String → Except String Env) (u : String),
      (validate_link w u).status ≠ Status.UNKNOWN ∧
      (validate_link w u).status ∈
        [Status.OK, Status.BROKEN, Status.SOFT_404, Status.SOFT_403, Status.NA]) := by
  constructor
  · intro env u ejs
    exact status_terminal_cases _ (check_link_strict_terminal env u ejs)
  · intro w u
    exact status_terminal_cases _ (validate_link_terminal w u)

/-- C2 counterexample: a resolved 404 whose body contains a canonical link
tag with the href "http://[" makes `urljoin` raise ValueError inside
`_analyze_html`; the exception escapes the hard-broken branch to the outer
handler, and the result is N/A, not BROKEN — so body content can matter. -/
theorem claim_C2_counterexample :
    (headThenGet envC2c "https://example.com/x").1 = some 404 ∧
    (check_link_strict envC2c "https://example.com/x" false).status = Status.NA ∧
    (check_link_strict envC2c "https://example.com/x" false).status ≠ Status.BROKEN := by
  refine ⟨by decide, by decide, by decide⟩

/-- C2 (amended): for every resolved status in 404, 410, or the 5xx range,
the validator classifies the link BROKEN with reason "HTTP code" before any
content-based heuristic, provided the body is empty or the body analysis
does not itself raise (a raising analysis, e.g. a malformed canonical href,
falls through to the exception handler and yields N/A instead). -/
theorem claim_C2_hard_failure_amended (env : Env) (u : String) (s : Nat) (fu bd : String)
    (hh : headThenGet env u = (some s, fu, bd))
    (hs : s ≥ 500 ∨ s = 404 ∨ s = 410)
    (hbody : bd = "" ∨ ∃ a, analyzeHtml env.analyze bd fu = Except.ok a) :
    (check_link_strict env u false).status = Status.BROKEN ∧
    (check_link_strict env u false).reason = "HTTP " ++ toString s := by
  unfold check_link_strict
  rw [hh]
  dsimp only
  rw [if_pos hs]
  rcases hbody with rfl | ⟨a, ha⟩
  · rw [if_pos rfl]
    exact ⟨rfl, rfl⟩
  · by_cases hbd : bd = ""
    · rw [if_pos hbd]
      exact ⟨rfl, rfl⟩
    · rw [if_neg hbd]
      simp only [ha]
      exact ⟨rfl, rfl⟩

/-- C2 witness: a concrete 404 with an empty body is BROKEN with reason
HTTP 404. -/
theorem claim_C2_witness :
    (check_link_strict envC2w "https://example.com/x" false).status = Status.BROKEN ∧
    (check_link_strict envC2w "https://example.com/x" false).reason = "HTTP " ++ toString 404 :=
  claim_C2_hard_failure_amended envC2w "https://example.com/x" 404 "https://example.com/x" ""
    (by decide) (Or.inr (Or.inl rfl)) (Or.inl rfl)


/-- C3 counterexample: a BROKEN (404) result whose final_url contains the
/de-de/ segment is NOT reclassified OK even though the HEAD probe of the
stripped URL would answer 200: hard-broken results return before the locale
fallback step ever runs, so localized_rescue stays false. -/
theorem claim_C3_counterexample :
    (localeSub1 ("https://example.com/de-de/missing").data).isSome = true ∧
    envC3c.localeHead = Except.ok ⟨200, "https://example.com/missing", ""⟩ ∧
    (check_link_strict envC3c "https://example.com/de-de/missing" false).final_url
      = some "https://example.com/de-de/missing" ∧
    (check_link_strict envC3c "https://example.com/de-de/missing" false).status = Status.BROKEN ∧
    (check_link_strict envC3c "https://example.com/de-de/missing" false).localized_rescue
      = some false := by
  refine ⟨by decide, rfl, by decide, by decide, by decide⟩

/-- C3 (amended): the locale rescue applies only to results that reach the
content-analysis stage (a resolved status that is not 404/410/5xx and a
body that is not soft-404): for those, when final_url contains an /xx-yy/
segment and the quick HEAD of the stripped URL answers exactly 200, the
result becomes OK with localized_rescue true and final_url replaced by the
probe resolved URL.  Hard-BROKEN results return earlier, so a successful
probe never rescues them, and a failed probe leaves any classification
unchanged. -/
theorem claim_C3_locale_rescue_amended (env : Env) (u : String) (s : Nat) (fu bd : String)
    (a : Analysed) (tl : List Char) (fh : HttpResp)
    (hh : headThenGet env u = (some s, fu, bd))
    (hns : ¬(s ≥ 500 ∨ s = 404 ∨ s = 410))
    (hga : getAnalysed env bd fu = Except.ok a)
    (hsoft : a.soft = false)
    (hloc : localeSub1 fu.data = some tl)
    (hne0 : (⟨tl⟩ : String) ≠ "")
    (hne : (⟨tl⟩ : String) ≠ fu)
    (hprobe : env.localeHead = Except.ok fh)
    (h200 : fh.status = 200) :
    (check_link_strict env u false).status = Status.OK ∧
    (check_link_strict env u false).localized_rescue = some true ∧
    (check_link_strict env u false).final_url = some fh.url ∧
    (check_link_strict env u false).reason = "Localized fallback succeeded" := by
  unfold check_link_strict
  rw [hh]
  try dsimp only
  rw [if_neg hns]
  simp only [hga]
  try dsimp only
  rw [hsoft]
  rw [if_neg (by decide : ¬(false = true))]
  unfold localeRescue
  rw [hloc]
  try dsimp only
  rw [if_pos ⟨hne0, hne⟩, hprobe]
  try dsimp only
  rw [h200]
  rw [if_pos rfl]
  exact ⟨rfl, rfl, rfl, rfl⟩

set_option maxRecDepth 10000 in
/-- C3 witness: a healthy 200 page under /de-de/ whose stripped URL probes
200 is rescued: OK, localized_rescue true, final_url updated. -/
theorem claim_C3_witness :
    (check_link_strict envC3w "https://example.com/de-de/x9" false).status = Status.OK ∧
    (check_link_strict envC3w "https://example.com/de-de/x9" false).localized_rescue = some true ∧
    (check_link_strict envC3w "https://example.com/de-de/x9" false).final_url
      = some "https://example.com/x9" ∧
    (check_link_strict envC3w "https://example.com/de-de/x9" false).reason
      = "Localized fallback succeeded" :=
  claim_C3_locale_rescue_amended envC3w "https://example.com/de-de/x9" 200
    "https://example.com/de-de/x9" t350 ⟨"", t350, t350, none, false⟩
    ("https://example.com/x9").data ⟨200, "https://example.com/x9", ""⟩
    (by decide) (by decide) (by decide) rfl (by decide) (by decide) (by decide) rfl rfl

/-- C4 counterexample: a 200 response whose body is soft-404-like — for
this body BeautifulSoup yields title "" and visible text "", so the
combined text the predicate would see is a single space, stripped length 0,
under the 300-character threshold — but which also carries the malformed
canonical href "http://[": the analysis raises at the canonical urljoin
before the soft flag is ever used, the exception escapes to the outer
handler, and the result is N/A, not SOFT_404. -/
theorem claim_C4_counterexample :
    is_soft_404_text ("" ++ " " ++ "") = true ∧
    (check_link_strict envC4c "https://example.com/x" false).status = Status.NA ∧
    (check_link_strict envC4c "https://example.com/x" false).status ≠ Status.SOFT_404 := by
  refine ⟨by decide, by decide, by decide⟩

/-- C4 (amended): every response resolving to status 200 whose body
analysis succeeds and finds soft-404-like content — the combined title and
visible text is shorter than the 300-character threshold or matches a
configured error phrase, case-insensitively, which is exactly
`a.soft = true` — is classified SOFT_404 with the body snippet, and never
OK.  The analysis-succeeds hypothesis is forced: when the body also makes
the analysis raise (a malformed canonical href), the result is N/A. -/
theorem claim_C4_soft404_amended (env : Env) (u : String) (fu bd : String) (a : Analysed)
    (hh : headThenGet env u = (some 200, fu, bd))
    (hga : getAnalysed env bd fu = Except.ok a)
    (hsoft : a.soft = true) :
    (check_link_strict env u false).status = Status.SOFT_404 ∧
    (check_link_strict env u false).snippet = some a.snippet ∧
    (check_link_strict env u false).status ≠ Status.OK := by
  unfold check_link_strict
  rw [hh]
  try dsimp only
  rw [if_neg (by omega : ¬(200 ≥ 500 ∨ 200 = 404 ∨ 200 = 410))]
  simp only [hga]
  try dsimp only
  rw [hsoft]
  rw [if_pos rfl]
  exact ⟨rfl, rfl, fun h => Status.noConfusion h⟩

/-- C4 witness: a 200 response whose body is the 10-character text
"short page" is classified SOFT_404 with that snippet, not OK. -/
theorem claim_C4_witness :
    (check_link_strict envC4w "https://example.com/x" false).status = Status.SOFT_404 ∧
    (check_link_strict envC4w "https://example.com/x" false).snippet = some "short page" ∧
    (check_link_strict envC4w "https://example.com/x" false).status ≠ Status.OK :=
  claim_C4_soft404_amended envC4w "https://example.com/x" "https://example.com/x" "short page"
    ⟨"", "short page", "short page", none, true⟩ (by decide) (by decide) rfl

/-- C5 counterexample: a 403 whose body is "cloudflare" — a bot-protection
marker — is classified SOFT_404, not SOFT_403: the content-based soft-404
analysis runs BEFORE the bot-challenge check, and the 10-character body is
under the length threshold. -/
theorem claim_C5_counterexample :
    strContains (strLower "cloudflare") "cloudflare" = true ∧
    (check_link_strict envC5c "https://example.com/x" false).status = Status.SOFT_404 ∧
    (check_link_strict envC5c "https://example.com/x" false).status ≠ Status.SOFT_403 := by
  refine ⟨by decide, by decide, by decide⟩

/-- C5 (amended): the soft-404 analysis and the locale rescue run before
the 403 bot-challenge check.  A 403 response whose body is NOT
soft-404-like (and whose final URL has no locale segment) is then
classified SOFT_403 when the lower-cased body contains the "cloudflare"
marker, and OK with reason "403 treated as OK (soft)" when it does not. -/
theorem claim_C5_bot_challenge_amended (env : Env) (u fu bd : String) (a : Analysed)
    (hh : headThenGet env u = (some 403, fu, bd))
    (hbd : bd ≠ "")
    (hga : getAnalysed env bd fu = Except.ok a)
    (hsoft : a.soft = false)
    (hloc : localeSub1 fu.data = none) :
    (check_link_strict env u false).status =
      (if strContains (strLower bd) "cloudflare" then Status.SOFT_403 else Status.OK) ∧
    (strContains (strLower bd) "cloudflare" = false →
      (check_link_strict env u false).reason = "403 treated as OK (soft)") := by
  unfold check_link_strict
  rw [hh]
  try dsimp only
  rw [if_neg (by omega : ¬(403 ≥ 500 ∨ 403 = 404 ∨ 403 = 410))]
  simp only [hga]
  try dsimp only
  rw [hsoft]
  rw [if_neg (by decide : ¬(false = true))]
  unfold localeRescue
  rw [hloc]
  try dsimp only
  rw [if_pos trivial]
  by_cases hcf : strContains (strLower bd) "cloudflare" = true
  · rw [if_pos ⟨hbd, hcf⟩, if_neg (by decide : ¬(false = true)), if_pos hcf]
    refine ⟨rfl, fun habs => ?_⟩
    rw [habs] at hcf
    exact absurd hcf (by decide)
  · rw [if_neg (fun hand => hcf hand.2), if_neg hcf]
    exact ⟨rfl, fun _ => rfl⟩

set_option maxRecDepth 10000 in
/-- C5 witness: a 403 with a long cloudflare challenge body is SOFT_403. -/
theorem claim_C5_witness :
    strContains (strLower cfBig) "cloudflare" = true ∧
    (check_link_strict envC5w "https://example.com/x" false).status = Status.SOFT_403 := by
  have h := claim_C5_bot_challenge_amended envC5w "https://example.com/x"
    "https://example.com/x" cfBig ⟨"", cfBig, cfBig, none, false⟩
    (by decide) (by decide) (by decide) rfl (by decide)
  refine ⟨by decide, ?_⟩
  rw [h.1]
  decide


theorem candKey_of_ne {x : LinkCand} (h : urlKey x ≠ "") : candKey x = some (urlKey x) := by
  unfold candKey
  rw [if_neg h]

theorem candKey_some {z : LinkCand} {k : String} (h : candKey z = some k) : urlKey z = k := by
  unfold candKey at h
  split at h
  · cases h
  · exact Option.some.inj h

/-- C6 counterexample: two candidates whose URLs differ only by letter case
produce two distinct entries in the checker dedup — the pipeline key is
only `url.rstrip("/")`, so case (and query/fragment) differences do NOT
collapse to one entry. -/
theorem claim_C6_counterexample :
    urlKey candUpper ≠ urlKey candLower ∧
    dedupCandidates [candUpper, candLower] = [candUpper, candLower] ∧
    (dedupCandidates [candUpper, candLower]).length = 2 := by
  refine ⟨by decide, by decide, by decide⟩

/-- C6 (amended): the checker dedup is idempotent, keeps the first-seen
candidate with its metadata in insertion order (the kept entry is the
find-first element for its key, and the output is a subsequence of the
input with pairwise-distinct nonempty keys, one entry per represented key),
and collapses URLs differing only by trailing slashes.  Case, query and
fragment differences do not collapse in the pipeline; the standalone
utility remove_duplicate_urls/normalize_url (unused by the checker) is also
idempotent and does collapse case, trailing slash, query and fragment. -/
theorem claim_C6_dedup_amended :
    (∀ ls : List LinkCand, dedupCandidates (dedupCandidates ls) = dedupCandidates ls) ∧
    (∀ ls : List LinkCand, (dedupCandidates ls).Sublist ls) ∧
    (∀ ls : List LinkCand, (dedupCandidates ls).Pairwise (fun a b => candKey a ≠ candKey b)) ∧
    (∀ (ls : List LinkCand) (y : LinkCand), y ∈ dedupCandidates ls →
      ∃ k, candKey y = some k ∧ List.find? (fun z => candKey z == some k) ls = some y) ∧
    (∀ (ls : List LinkCand) (x : LinkCand), x ∈ ls → urlKey x ≠ "" →
      ∃ y ∈ dedupCandidates ls, urlKey y = urlKey x) ∧
    dedupCandidates [candPlain, candSlash] = [candPlain] ∧
    (∀ us : List String, remove_duplicate_urls (remove_duplicate_urls us) = remove_duplicate_urls us) ∧
    normalize_url "https://A.com/x/" = normalize_url "https://a.com/x" ∧
    normalize_url "https://a.com/x?q=1" = normalize_url "https://a.com/x#f" := by
  refine ⟨?_, ?_, ?_, ?_, ?_, by decide, ?_, by decide, by decide⟩
  · intro ls
    exact firstSeenBy_idem candKey ls
  · intro ls
    exact firstSeenBy_sublist candKey ls []
  · intro ls
    exact firstSeenBy_pairwise candKey ls []
  · intro ls y hy
    obtain ⟨k, hk, -, hfind⟩ := firstSeenBy_find candKey ls [] y hy
    exact ⟨k, hk, hfind⟩
  · intro ls x hx hne
    obtain ⟨y, hy, hky⟩ := firstSeenBy_covers candKey ls [] x (urlKey x) hx (candKey_of_ne hne)
      (by simp)
    exact ⟨y, hy, candKey_some hky⟩
  · intro us
    exact firstSeenBy_idem (fun u => some (normalize_url u)) us

/-- C6 witness: dedup of a concrete slash-variant pair is idempotent and
represents the slash variant by the first-seen candidate. -/
theorem claim_C6_witness :
    dedupCandidates (dedupCandidates [candPlain, candSlash]) = dedupCandidates [candPlain, candSlash] ∧
    (∃ y ∈ dedupCandidates [candPlain, candSlash], urlKey y = urlKey candSlash) :=
  ⟨claim_C6_dedup_amended.1 [candPlain, candSlash],
   claim_C6_dedup_amended.2.2.2.2.1 [candPlain, candSlash] candSlash (by decide) (by decide)⟩

/-- C7: in the crawl report, broken_links is exactly the subset of the
validation results with status BROKEN; every broken entry carries the url
of a unique link in all_links (so broken is URL-wise a subset of
all_links); the results pair one-to-one, in order, with the unique links
(same length, equal url at every index); and the all_links entries have
pairwise-distinct normalized URL keys. -/
theorem claim_C7_report (w : String → Except String Env) (extracted : List LinkCand) :
    (∀ r, r ∈ collectBroken (runValidationResults w (dedupCandidates extracted)) ↔
      (r ∈ runValidationResults w (dedupCandidates extracted) ∧ r.status = Status.BROKEN)) ∧
    (∀ r, r ∈ collectBroken (runValidationResults w (dedupCandidates extracted)) →
      ∃ l ∈ dedupCandidates extracted, r.url = l.url) ∧
    (runValidationResults w (dedupCandidates extracted)).length
      = (dedupCandidates extracted).length ∧
    (∀ (i : Nat) (h1 : i < (runValidationResults w (dedupCandidates extracted)).length)
        (h2 : i < (dedupCandidates extracted).length),
      ((runValidationResults w (dedupCandidates extracted)).get ⟨i, h1⟩).url
        = ((dedupCandidates extracted).get ⟨i, h2⟩).url) ∧
    (dedupCandidates extracted).Pairwise (fun a b => candKey a ≠ candKey b) := by
  refine ⟨?_, ?_, ?_, ?_, firstSeenBy_pairwise candKey extracted []⟩
  · intro r
    simp [collectBroken, List.mem_filter]
  · intro r hr
    have hr2 : r ∈ runValidationResults w (dedupCandidates extracted) :=
      List.mem_of_mem_filter hr
    obtain ⟨l, hl, rfl⟩ := List.mem_map.mp hr2
    exact ⟨l, hl, validate_link_url w l.url⟩
  · simp [runValidationResults]
  · intro i h1 h2
    simp [runValidationResults, List.get_eq_getElem, List.getElem_map, validate_link_url]

/-- C7 witness: the report invariants instantiated on a concrete one-link
crawl whose validation request raises. -/
theorem claim_C7_witness :
    (runValidationResults (fun _ => Except.error "boom") (dedupCandidates [candPlain])).length
      = (dedupCandidates [candPlain]).length ∧
    (dedupCandidates [candPlain]).Pairwise (fun a b => candKey a ≠ candKey b) :=
  ⟨(claim_C7_report (fun _ => Except.error "boom") [candPlain]).2.2.1,
   (claim_C7_report (fun _ => Except.error "boom") [candPlain]).2.2.2.2⟩

/-- C8 counterexample: when the body analysis raises (malformed canonical
href), check_link_strict returns the last-resort exception dict, which
omits the snippet, localized_rescue, canonical_match and js_recovery keys —
so not every returned result carries all fields. -/
theorem claim_C8_counterexample :
    (check_link_strict envC8c "https://example.com/x" false).status = Status.NA ∧
    (check_link_strict envC8c "https://example.com/x" false).snippet = none ∧
    (check_link_strict envC8c "https://example.com/x" false).localized_rescue = none ∧
    (check_link_strict envC8c "https://example.com/x" false).canonical_match = none ∧
    (check_link_strict envC8c "https://example.com/x" false).js_recovery = none := by
  refine ⟨by decide, by decide, by decide, by decide, by decide⟩

/-- C8 (amended): whenever the body analysis cannot raise, every result
returned by check_link_strict — including N/A transport-failure results
from the guarded fetch helpers — carries all of url, final_url, status,
status_code, reason, snippet, localized_rescue, canonical_match and
js_recovery (the last five possibly empty or default); only the last-resort
exception path returns a dict with keys missing. -/
theorem claim_C8_result_fields_amended (env : Env) (u : String) (ejs : Bool)
    (hok : ∀ h b, ∃ d, env.analyze h b = Except.ok d) :
    hasAllKeys (check_link_strict env u ejs) :=
  check_link_strict_allKeys env u ejs hok

/-- C8 witness: with a total parser, a transport-failing validation still
returns a result carrying every field. -/
theorem claim_C8_witness :
    hasAllKeys (check_link_strict envPlain "https://example.com/x" false) :=
  claim_C8_result_fields_amended envPlain "https://example.com/x" false
    (fun h _ => ⟨⟨"", h, none⟩, rfl⟩)

/-- C9: in every reachable state of a crawl run throttle with per-domain
limit N and global connector limit L, at most N validation operations hold
the semaphore of any one domain, and the single global gate keeps at most
L connections in flight across all domains. -/
theorem claim_C9_concurrency_bounds (N L : Nat) (s : TState) (h : ThrottleReach N L s) :
    (∀ d, s.holding d ≤ N) ∧ s.conns ≤ L := by
  obtain ⟨hd, hc⟩ := throttle_conservation N L s h
  exact ⟨fun d => by have := hd d; omega, by omega⟩

/-- C9 witness: the bounds instantiated at the initial state with the
default limits 8 per domain and 200 global. -/
theorem claim_C9_witness :
    (∀ d, (initTState PER_DOMAIN_CONCURRENCY GLOBAL_CONCURRENCY).holding d
        ≤ PER_DOMAIN_CONCURRENCY) ∧
    (initTState PER_DOMAIN_CONCURRENCY GLOBAL_CONCURRENCY).conns ≤ GLOBAL_CONCURRENCY :=
  claim_C9_concurrency_bounds PER_DOMAIN_CONCURRENCY GLOBAL_CONCURRENCY
    (initTState PER_DOMAIN_CONCURRENCY GLOBAL_CONCURRENCY) ThrottleReach.init

/-- C10 counterexample: a 200 HEAD response whose follow-up body fetch
succeeds with a zero-length body IS classified SOFT_404: the analysed text
is title plus a space plus the visible text, which is never the empty
string, so the empty-text guard of the predicate cannot fire and the
length check classifies the page soft. -/
theorem claim_C10_counterexample :
    envC10c.followupGet = Except.ok ⟨200, "https://example.com/x", ""⟩ ∧
    (check_link_strict envC10c "https://example.com/x" false).status = Status.SOFT_404 ∧
    (check_link_strict envC10c "https://example.com/x" false).status ≠ Status.OK := by
  refine ⟨rfl, by decide, by decide⟩

/-- C10 (amended): the soft-404 predicate itself is false on the empty
string, but in the pipeline that guard never fires; an empty-bodied 200 is
classified OK only when the follow-up body fetch fails, in which case the
analysis degrades to the default with the soft flag false. -/
theorem claim_C10_empty_body_amended (env : Env) (u : String) (h : HttpResp) (e : String)
    (har : env.asyncResp = none)
    (hh : env.headResp = Except.ok h)
    (h200 : h.status = 200)
    (hfail : env.followupGet = Except.error e)
    (hloc : localeSub1 h.url.data = none) :
    is_soft_404_text "" = false ∧
    (check_link_strict env u false).status = Status.OK ∧
    (check_link_strict env u false).snippet = some "" ∧
    (check_link_strict env u false).reason = "HTTP 200" := by
  have hhg : headThenGet env u = (some 200, h.url, "") := by
    unfold headThenGet
    rw [har]
    try dsimp only
    rw [hh]
    try dsimp only
    rw [h200]
    rw [if_neg (by omega : ¬(200 = 405 ∨ 200 = 501 ∨ 200 ≥ 400))]
  have hga : getAnalysed env "" h.url = Except.ok
      { title := "", visibleText := "", snippet := "", canonical := none, soft := false } := by
    unfold getAnalysed
    rw [if_neg (by simp)]
    try dsimp only
    rw [hfail]
  refine ⟨rfl, ?_⟩
  unfold check_link_strict
  rw [hhg]
  try dsimp only
  rw [if_neg (by omega : ¬(200 ≥ 500 ∨ 200 = 404 ∨ 200 = 410))]
  simp only [hga]
  try dsimp only
  rw [if_neg (by decide : ¬(false = true))]
  unfold localeRescue
  rw [hloc]
  try dsimp only
  rw [if_neg (by omega : ¬(200 = 403))]
  exact ⟨rfl, rfl, rfl⟩

/-- C10 witness: a 200 HEAD with a failing follow-up body fetch is OK with
an empty snippet. -/
theorem claim_C10_witness :
    is_soft_404_text "" = false ∧
    (check_link_strict envC10w "https://example.com/x" false).status = Status.OK ∧
    (check_link_strict envC10w "https://example.com/x" false).snippet = some "" ∧
    (check_link_strict envC10w "https://example.com/x" false).reason = "HTTP 200" :=
  claim_C10_empty_body_amended envC10w "https://example.com/x"
    ⟨200, "https://example.com/x", ""⟩ "TimeoutError" rfl rfl rfl rfl (by decide)


end NetRunner
